import Mathlib

/-!
# SatBbFrame: capacity bookkeeping of a BB frame

Shallow embedding of `src/model/satellite-bbframe.cc` (class `SatBbFrame`):
the two constructors, `AddPayload`, `GetSpaceLeftInBytes`,
`GetMaxSpaceInBytes` and `GetTransmitData`; of the globals, accessors and
event timeline of `src/examples/sat-markov-logic-example.cc`; and of the two
classes of which only the declaration is among the sources,
`SatRayleighConf` and `SatInterferenceInputTraceContainer`, whose member
functions are modelled from the specification.

Conventions of the embedding:
* `uint32_t` values are natural numbers, reduced `% 2^32` wherever the C++
  code produces a new `uint32_t` (return values, the subtraction).
* A member function that mutates `*this` takes the frame and returns the
  result together with the frame after the call.
* `NS_FATAL_ERROR` and a failing `NS_ASSERT` stop the operation; they are the
  error results of the embedding. They also end the process: `runAddPayloads`
  is the run of calls that stops there, while `addPayloads` follows the frame
  through every offered unit, a rejected unit leaving it as it was.
-/

namespace Sns3

/-- The modulus of `uint32_t` arithmetic. -/
def UINT32_MOD : Nat := 2 ^ 32

/-- The ns-3 `Time` value, an integer count of time steps. The frame only
stores and returns durations, it never computes with them. -/
abbrev Time := Int

/-- Modelled from the spec: the enumeration `SatEnums::SatModcod_t` is declared
in `satellite-enums.h`, which is not among the sources. The frame only names
`SAT_MODCOD_QPSK_3_TO_4`; every other scheme identifier is `OTHER raw`. -/
inductive SatModcod_t where
  | SAT_MODCOD_QPSK_3_TO_4
  | OTHER (raw : Nat)
  deriving DecidableEq, Repr

/-- Modelled from the spec: the enumeration `SatEnums::SatBbFrameType_t` is
declared in `satellite-enums.h`, which is not among the sources. The three
enumerators are the ones the constructor switches on (short / normal / dummy);
`INVALID raw` stands for a value of the enumeration type that is none of the
three enumerators (a C++ enumeration can hold such a value). -/
inductive SatBbFrameType_t where
  | SHORT_FRAME
  | NORMAL_FRAME
  | DUMMY_FRAME
  | INVALID (raw : Nat)
  deriving DecidableEq, Repr

/-- The ways an operation of the frame stops instead of returning:
the two `NS_FATAL_ERROR` calls of the constructors and the `NS_ASSERT (0)` of
`AddPayload`. -/
inductive FrameError where
  /-- The call `NS_FATAL_ERROR ("Default constructor of SatBbFrame not supported.")`. -/
  | defaultConstructorNotSupported
  /-- The call `NS_FATAL_ERROR ("Invalid BBFrame type!!!")`. -/
  | invalidBbFrameType
  /-- The call `NS_ASSERT (0)` in the else branch of `AddPayload`. -/
  | assertionFailed
  deriving DecidableEq, Repr

/-- Modelled from the spec: the class `SatBbFrameConf` is declared in
`satellite-bbframe-conf.h`, which is not among the sources. The spec describes
it as the table mapping (scheme, frame type) to (payload capacity in bits,
frame duration) plus a distinct dummy frame duration constant; the three
fields are what the three member functions called by the constructor return. -/
structure SatBbFrameConf where
  payloadBits : SatModcod_t → SatBbFrameType_t → Nat
  frameLength : SatModcod_t → SatBbFrameType_t → Time
  dummyFrameLength : Time

/-- The call `conf->GetBbFramePayloadBits (modCod, type)`; the result is a
`uint32_t`. -/
def SatBbFrameConf.GetBbFramePayloadBits (conf : SatBbFrameConf)
    (modCod : SatModcod_t) (type : SatBbFrameType_t) : Nat :=
  conf.payloadBits modCod type % UINT32_MOD

/-- The call `conf->GetBbFrameLength (modCod, type)`. -/
def SatBbFrameConf.GetBbFrameLength (conf : SatBbFrameConf)
    (modCod : SatModcod_t) (type : SatBbFrameType_t) : Time :=
  conf.frameLength modCod type

/-- The call `conf->GetDummyBbFrameLength ()`. -/
def SatBbFrameConf.GetDummyBbFrameLength (conf : SatBbFrameConf) : Time :=
  conf.dummyFrameLength

/-- A payload unit (`Ptr<Packet>`): an identity and a byte count. -/
structure Packet where
  uid : Nat
  size : Nat
  deriving DecidableEq, Repr

/-- The call `data->GetSize ()`; the result is a `uint32_t`. -/
def Packet.GetSize (data : Packet) : Nat :=
  data.size % UINT32_MOD

/-- The data members of `SatBbFrame`. -/
structure SatBbFrame where
  m_modCod : SatModcod_t
  m_spaceInBytes : Nat
  m_maxSpaceInBytes : Nat
  m_containsControlPdu : Bool
  m_frameType : SatBbFrameType_t
  m_duration : Time
  framePayload : List Packet
  deriving DecidableEq, Repr

/-- The macro `NS_FATAL_ERROR (msg)`: the operation stops. -/
def NS_FATAL_ERROR {α : Type} (e : FrameError) : Except FrameError α :=
  Except.error e

/-- The constructor `SatBbFrame::SatBbFrame ()`. `zeroType` is the value of
`SatBbFrameType_t` that `m_frameType ()` value-initialises to. -/
def SatBbFrame.mkDefault (zeroType : SatBbFrameType_t) : Except FrameError SatBbFrame := do
  let self : SatBbFrame :=
    { m_modCod := SatModcod_t.SAT_MODCOD_QPSK_3_TO_4
      m_spaceInBytes := 0
      m_maxSpaceInBytes := 0
      m_containsControlPdu := false
      m_frameType := zeroType
      m_duration := 0
      framePayload := [] }
  let _ ← (NS_FATAL_ERROR FrameError.defaultConstructorNotSupported : Except FrameError Unit)
  return self

/-- The constructor
`SatBbFrame::SatBbFrame (modCod, type, conf)`: the member initialisers, the
`switch (type)` and the final `m_spaceInBytes = m_maxSpaceInBytes`. -/
def SatBbFrame.mk3 (modCod : SatModcod_t) (type : SatBbFrameType_t)
    (conf : SatBbFrameConf) : Except FrameError SatBbFrame := do
  let sized : Nat × Nat × Time ←
    match type with
    | SatBbFrameType_t.SHORT_FRAME | SatBbFrameType_t.NORMAL_FRAME =>
      let spaceInBytes := conf.GetBbFramePayloadBits modCod type / 8
      let maxSpaceInBytes := spaceInBytes
      let duration := conf.GetBbFrameLength modCod type
      pure (spaceInBytes, maxSpaceInBytes, duration)
    | SatBbFrameType_t.DUMMY_FRAME =>
      let spaceInBytes :=
        conf.GetBbFramePayloadBits modCod SatBbFrameType_t.SHORT_FRAME / 8
      let maxSpaceInBytes := spaceInBytes
      let duration := conf.GetDummyBbFrameLength
      pure (spaceInBytes, maxSpaceInBytes, duration)
    | SatBbFrameType_t.INVALID _ =>
      NS_FATAL_ERROR FrameError.invalidBbFrameType
  let maxSpaceInBytes := sized.2.1
  return { m_modCod := modCod
           m_containsControlPdu := false
           m_frameType := type
           m_spaceInBytes := maxSpaceInBytes
           m_maxSpaceInBytes := maxSpaceInBytes
           m_duration := sized.2.2
           framePayload := [] }

/-- The member function `SatBbFrame::GetTransmitData`. -/
def SatBbFrame.GetTransmitData (self : SatBbFrame) : List Packet :=
  self.framePayload

/-- The member function `SatBbFrame::GetSpaceLeftInBytes`. -/
def SatBbFrame.GetSpaceLeftInBytes (self : SatBbFrame) : Nat :=
  self.m_spaceInBytes

/-- The member function `SatBbFrame::GetMaxSpaceInBytes`. -/
def SatBbFrame.GetMaxSpaceInBytes (self : SatBbFrame) : Nat :=
  self.m_maxSpaceInBytes

/-- The `uint32_t` subtraction `a - b`, computed modulo `2^32`. -/
def uint32_sub (a b : Nat) : Nat :=
  Int.toNat (((a : Int) - (b : Int)) % (UINT32_MOD : Int))

/-- The member function `SatBbFrame::AddPayload`. The first component is what
the call returns (or the failed assertion), the second the frame after the
call. The else branch is `NS_ASSERT (0)` with assertions enabled: the call
stops there, having changed no member. -/
def SatBbFrame.AddPayload (self : SatBbFrame) (data : Packet) :
    Except FrameError Nat × SatBbFrame :=
  let dataLengthInBytes := data.GetSize
  if dataLengthInBytes ≤ self.m_spaceInBytes then
    let self1 := { self with framePayload := self.framePayload ++ [data] }
    let self2 :=
      { self1 with m_spaceInBytes := uint32_sub self1.m_spaceInBytes dataLengthInBytes }
    (Except.ok self2.GetSpaceLeftInBytes, self2)
  else
    (Except.error FrameError.assertionFailed, self)

/-- A finite sequence of `AddPayload` calls on one frame, in order: the list
of what each call returned and the frame after the last call. -/
def addPayloads (self : SatBbFrame) : List Packet → List (Except FrameError Nat) × SatBbFrame
  | [] => ([], self)
  | data :: rest =>
    let r := self.AddPayload data
    let rs := addPayloads r.2 rest
    (r.1 :: rs.1, rs.2)

/-- A run of a program that calls `AddPayload` on one frame for each unit of a
list in turn. A failed `NS_ASSERT (0)` ends the process: the call that fails
is the last call of the run, and the units after it are never offered. The
result is the list of what the calls that took place returned and the frame
at the end of the run. -/
def runAddPayloads (self : SatBbFrame) : List Packet → List (Except FrameError Nat) × SatBbFrame
  | [] => ([], self)
  | data :: rest =>
    match self.AddPayload data with
    | (Except.ok n, self1) =>
      let rs := runAddPayloads self1 rest
      (Except.ok n :: rs.1, rs.2)
    | (Except.error e, self1) => ([Except.error e], self1)

/-- The sum of the sizes of the units of a payload sequence. -/
def payloadBytes (units : List Packet) : Nat :=
  (units.map Packet.GetSize).sum

/-- The bookkeeping invariant of a frame: the remaining capacity plus the bytes
held equals the maximum capacity, which is a `uint32_t`. -/
def SatBbFrame.Balanced (f : SatBbFrame) : Prop :=
  f.m_spaceInBytes + payloadBytes f.framePayload = f.m_maxSpaceInBytes ∧
    f.m_maxSpaceInBytes < UINT32_MOD

/-- A configuration for the scenario: 8000 payload bits (1000 bytes) for
QPSK 3/4 short frames and nothing else. -/
def scenarioConf : SatBbFrameConf where
  payloadBits := fun m t =>
    if m = SatModcod_t.SAT_MODCOD_QPSK_3_TO_4 ∧ t = SatBbFrameType_t.SHORT_FRAME then 8000 else 0
  frameLength := fun _ _ => 100
  dummyFrameLength := 50

/-- A configuration whose dummy frame length is the same number as every entry
of its frame length table. -/
def equalLengthConf : SatBbFrameConf where
  payloadBits := fun _ _ => 8000
  frameLength := fun _ _ => 5
  dummyFrameLength := 5

/-- A configuration with distinct entries: bits and lengths depend on the
frame type, and the dummy length is a third value. -/
def sampleConf : SatBbFrameConf where
  payloadBits := fun _ t =>
    match t with
    | SatBbFrameType_t.SHORT_FRAME => 16203
    | SatBbFrameType_t.NORMAL_FRAME => 64800
    | _ => 7
  frameLength := fun _ t =>
    match t with
    | SatBbFrameType_t.SHORT_FRAME => 11
    | SatBbFrameType_t.NORMAL_FRAME => 44
    | _ => 0
  dummyFrameLength := 3

/-- A call of `SatBbFrame::GetTransmitData` as a step on the frame: what the
call returns and the frame after the call. The body is the single statement
`return framePayload;`, which assigns no member. -/
def SatBbFrame.GetTransmitData_call (self : SatBbFrame) : List Packet × SatBbFrame :=
  (self.GetTransmitData, self)

/-- The subsequence of the offered units that were accepted, in the order
offered: the units whose `AddPayload` call returned a value, read off the
list of results of the calls. -/
def acceptedUnits : List Packet → List (Except FrameError Nat) → List Packet
  | p :: ps, Except.ok _ :: rs => p :: acceptedUnits ps rs
  | _ :: ps, Except.error _ :: rs => acceptedUnits ps rs
  | _, _ => []

/-- The units of a list that have a size of at least one byte. -/
def nonEmptyUnits (units : List Packet) : List Packet :=
  units.filter (fun p => decide (1 ≤ p.GetSize))

/-- A C++ `double` that the modelled code only stores, copies and returns; the
sources never compute with it. Every value the sources write is an integer
literal, which a `double` holds exactly. -/
abbrev Double := ℚ

/-! ### The Rayleigh parameter provider (`src/model/satellite-rayleigh-conf.h`) -/

/-- The constant `SatRayleighConf::DEFAULT_RAYLEIGH_PARAMETER_COUNT`. -/
def DEFAULT_RAYLEIGH_PARAMETER_COUNT : Nat := 2

/-- The data members of `SatRayleighConf`. -/
structure SatRayleighConf where
  m_elevationCount : Nat
  m_stateCount : Nat
  m_rayleighParameters : List (List (List Double))
  deriving DecidableEq

/-- The configuration error of the parameter provider. -/
inductive RayleighConfError where
  | configurationError
  deriving DecidableEq, Repr

/-- Modelled from the spec: the constructor of `SatRayleighConf` is defined in
`satellite-rayleigh-conf.cc`, which is not among the sources (only the class
declaration is). The spec has the provider built once at configuration time
from the state count and the parameter sets per elevation bucket, one fixed
tuple of two parameters per state, and has a bucket or state count mismatch
reported as a configuration error at load time. The provider is loaded from
the configured counts and the parameter table, and the load fails unless the
table has one set per elevation bucket, every set one tuple per state and
every tuple `DEFAULT_RAYLEIGH_PARAMETER_COUNT` values. -/
def SatRayleighConf.load (elevationCount stateCount : Nat)
    (table : List (List (List Double))) : Except RayleighConfError SatRayleighConf :=
  if table.length = elevationCount ∧
      ∀ set ∈ table, set.length = stateCount ∧
        ∀ tuple ∈ set, tuple.length = DEFAULT_RAYLEIGH_PARAMETER_COUNT then
    Except.ok
      { m_elevationCount := elevationCount
        m_stateCount := stateCount
        m_rayleighParameters := table }
  else
    Except.error RayleighConfError.configurationError

/-- Modelled from the spec: the member function `SatRayleighConf::GetParameters`
is defined in `satellite-rayleigh-conf.cc`, which is not among the sources.
The spec: the input is a bucket index already resolved by elevation, the
output the ordered sequence of per-state parameter tuples of that bucket.
There is no result for an index that is not a bucket. -/
def SatRayleighConf.GetParameters (self : SatRayleighConf) (set : Nat) :
    Option (List (List Double)) :=
  self.m_rayleighParameters[set]?

/-- A parameter table of two elevation buckets and three states. -/
def sampleRayleighTable : List (List (List Double)) :=
  [[[1, 2], [3, 4], [5, 6]], [[7, 8], [9, 10], [11, 12]]]

/-! ### The interference input trace container
(`src/model/satellite-interference-input-trace-container.h`) -/

/-- Modelled from the spec: the enumeration `SatEnums::ChannelType_t` is
declared in `satellite-enums.h`, which is not among the sources. The sources
name `FORWARD_USER_CH`; every other channel type is `OTHER raw`. -/
inductive ChannelType_t where
  | FORWARD_USER_CH
  | OTHER (raw : Nat)
  deriving DecidableEq, Repr

/-- The ns-3 `Address`, a network address compared for equality only. -/
abbrev Address := Nat

/-- The type `SatInterferenceInputTraceContainer::key_t`. -/
abbrev key_t := Address × ChannelType_t

/-- Modelled from the spec: the class `SatInputFileStreamDoubleContainer` is
declared in `satellite-input-fstream-double-container.h`, which is not among
the sources. The spec describes the series as loaded once per key from an
external source. A series instance is known by `instanceId`, the number of
instances created before it; `loaded` tells whether the external source has
been read into it. -/
structure SatInputFileStreamDoubleContainer where
  instanceId : Nat
  loaded : Bool
  deriving DecidableEq, Repr

/-- The type `SatInterferenceInputTraceContainer::container_t`, a `std::map`. -/
abbrev container_t := List (key_t × SatInputFileStreamDoubleContainer)

/-- The call `std::map::find`. -/
def map_find (key : key_t) : container_t → Option SatInputFileStreamDoubleContainer
  | [] => none
  | (k, s) :: rest => if k = key then some s else map_find key rest

/-- The assignment to the mapped value of the entry of `key`. -/
def map_assign (key : key_t) (s1 : SatInputFileStreamDoubleContainer) :
    container_t → container_t
  | [] => []
  | (k, s) :: rest =>
    if k = key then (k, s1) :: rest else (k, s) :: map_assign key s1 rest

/-- The number of entries a container has for `key`. -/
def entriesFor (key : key_t) (m : container_t) : Nat :=
  (m.filter (fun e => decide (e.1 = key))).length

/-- The data members of `SatInterferenceInputTraceContainer`, followed by two
records of its effects: `created` counts the series instances created so far,
`sourceLoads` lists, in order, the keys whose external source has been
loaded. -/
structure SatInterferenceInputTraceContainer where
  m_container : container_t
  m_index : Nat
  m_simulatorRootPath : String
  created : Nat
  sourceLoads : List key_t
  deriving DecidableEq

/-- Modelled from the spec: the member function
`SatInterferenceInputTraceContainer::AddNode` is defined in
`satellite-interference-input-trace-container.cc`, which is not among the
sources (only its declaration is). The spec: registering creates a lazy
binding between the key and an external series, and does not load it; each key
maps to exactly one series instance for the run. A key that is already bound
keeps its binding. -/
def SatInterferenceInputTraceContainer.AddNode (self : SatInterferenceInputTraceContainer)
    (key : key_t) : SatInterferenceInputTraceContainer :=
  match map_find key self.m_container with
  | some _ => self
  | none =>
    { self with
      m_container := self.m_container ++ [(key, { instanceId := self.created, loaded := false })]
      created := self.created + 1 }

/-- Modelled from the spec: the member function
`SatInterferenceInputTraceContainer::FindNode` is defined in
`satellite-interference-input-trace-container.cc`, which is not among the
sources (only its declaration is). The spec: the lookup gives the series or
not found; the first access of a key loads the external source, which
completes before the lookup returns, and later lookups of the key never touch
the external source again. -/
def SatInterferenceInputTraceContainer.FindNode (self : SatInterferenceInputTraceContainer)
    (key : key_t) :
    Option SatInputFileStreamDoubleContainer × SatInterferenceInputTraceContainer :=
  match map_find key self.m_container with
  | none => (none, self)
  | some s =>
    if s.loaded then
      (some s, self)
    else
      (some { s with loaded := true },
        { self with
          m_container := map_assign key { s with loaded := true } self.m_container
          sourceLoads := self.sourceLoads ++ [key] })

/-- The container after construction: no entry, nothing created or loaded. -/
def emptyTraceContainer : SatInterferenceInputTraceContainer :=
  { m_container := [], m_index := 0, m_simulatorRootPath := "", created := 0, sourceLoads := [] }

/-! ### The Markov logic example (`src/examples/sat-markov-logic-example.cc`) -/

namespace MarkovLogicExample

/-- The two file-scope variables `g_elevation` and `g_velocity`. -/
structure Globals where
  g_elevation : Double
  g_velocity : Double
  deriving DecidableEq

/-- The initialisers `g_elevation = 45` and `g_velocity = 0`. -/
def initialGlobals : Globals :=
  { g_elevation := 45, g_velocity := 0 }

/-- The function `GetElevation`. -/
def GetElevation (g : Globals) : Double :=
  g.g_elevation

/-- The function `SetElevation`. -/
def SetElevation (g : Globals) (elevation : Double) : Globals :=
  { g with g_elevation := elevation }

/-- The function `GetVelocity`. -/
def GetVelocity (g : Globals) : Double :=
  g.g_velocity

/-- The function `SetVelocity`. -/
def SetVelocity (g : Globals) (velocity : Double) : Globals :=
  { g with g_velocity := velocity }

/-- The three kinds of event `main` schedules. `DoGetFading` is the fading
request on the container for (`macAddress`, `FORWARD_USER_CH`). -/
inductive Event where
  | SetVelocity (velocity : Double)
  | SetElevation (elevation : Double)
  | DoGetFading
  deriving DecidableEq

/-- The call `Simulator::Schedule (Time (t), ...)`, times in milliseconds: the
event queue is ordered by timestamp, and events of equal timestamp stay in
the order they were scheduled. -/
def Schedule (queue : List (Nat × Event)) (t : Nat) (ev : Event) : List (Nat × Event) :=
  match queue with
  | [] => [(t, ev)]
  | (t1, ev1) :: rest =>
    if t1 ≤ t then (t1, ev1) :: Schedule rest t ev else (t, ev) :: (t1, ev1) :: rest

/-- The eleven `Simulator::Schedule` calls of `main`, in source order. -/
def mainQueue : List (Nat × Event) :=
  let q := Schedule [] 5 (Event.SetVelocity 0)
  let q := Schedule q 10 Event.DoGetFading
  let q := Schedule q 30 Event.DoGetFading
  let q := Schedule q 45 (Event.SetElevation 55)
  let q := Schedule q 50 Event.DoGetFading
  let q := Schedule q 60 Event.DoGetFading
  let q := Schedule q 90 Event.DoGetFading
  let q := Schedule q 95 (Event.SetElevation 75)
  let q := Schedule q 100 Event.DoGetFading
  let q := Schedule q 130 Event.DoGetFading
  let q := Schedule q 200 Event.DoGetFading
  q

/-- What the two query functions return at the moment of a fading request:
the timestamp, `GetElevation ()` and `GetVelocity ()`. -/
structure Observation where
  time : Nat
  elevation : Double
  velocity : Double
  deriving DecidableEq

/-- The call `Simulator::Run ()`: the queued events are executed in order; the
setters update the globals, and each fading request is recorded with what the
elevation and velocity query functions return at that moment. -/
def Run (g : Globals) : List (Nat × Event) → List Observation
  | [] => []
  | (_, Event.SetVelocity v) :: rest => Run (SetVelocity g v) rest
  | (_, Event.SetElevation e) :: rest => Run (SetElevation g e) rest
  | (t, Event.DoGetFading) :: rest =>
    { time := t, elevation := GetElevation g, velocity := GetVelocity g } :: Run g rest

end MarkovLogicExample

/-! ## Auxiliary facts -/

theorem uint32_sub_of_le {a b : Nat} (hba : b ≤ a) (ha : a < UINT32_MOD) :
    uint32_sub a b = a - b := by
  unfold uint32_sub
  have h1 : ((a : Int) - (b : Int)) = ((a - b : Nat) : Int) := by omega
  rw [h1]
  have h2 : (((a - b : Nat) : Int)) % (UINT32_MOD : Int) = ((a - b : Nat) : Int) := by
    apply Int.emod_eq_of_lt
    · omega
    · have : a - b < UINT32_MOD := by omega
      exact_mod_cast this
  rw [h2]
  simp

theorem payloadBytes_append (xs ys : List Packet) :
    payloadBytes (xs ++ ys) = payloadBytes xs + payloadBytes ys := by
  simp [payloadBytes]

theorem payloadBytes_singleton (p : Packet) : payloadBytes [p] = p.GetSize := by
  simp [payloadBytes]

theorem GetBbFramePayloadBits_lt (conf : SatBbFrameConf) (m : SatModcod_t)
    (t : SatBbFrameType_t) : conf.GetBbFramePayloadBits m t < UINT32_MOD := by
  unfold SatBbFrameConf.GetBbFramePayloadBits
  exact Nat.mod_lt _ (by unfold UINT32_MOD; positivity)

/-- The shape of every frame the three-argument constructor returns. -/
theorem mk3_ok_shape {m : SatModcod_t} {t : SatBbFrameType_t} {conf : SatBbFrameConf}
    {f : SatBbFrame} (h : SatBbFrame.mk3 m t conf = Except.ok f) :
    f.m_spaceInBytes = f.m_maxSpaceInBytes ∧ f.m_maxSpaceInBytes < UINT32_MOD ∧
      f.framePayload = [] := by
  have hS := GetBbFramePayloadBits_lt conf m SatBbFrameType_t.SHORT_FRAME
  have hN := GetBbFramePayloadBits_lt conf m SatBbFrameType_t.NORMAL_FRAME
  cases t <;>
    simp [SatBbFrame.mk3, NS_FATAL_ERROR, bind, Except.bind, pure, Except.pure] at h <;>
    subst h <;> refine ⟨rfl, ?_, rfl⟩ <;> simp only <;> omega

theorem mk3_balanced {m : SatModcod_t} {t : SatBbFrameType_t} {conf : SatBbFrameConf}
    {f : SatBbFrame} (h : SatBbFrame.mk3 m t conf = Except.ok f) : f.Balanced := by
  obtain ⟨h1, h2, h3⟩ := mk3_ok_shape h
  refine ⟨?_, h2⟩
  rw [h3, h1]
  simp [payloadBytes]

theorem AddPayload_accept {f : SatBbFrame} {p : Packet} (hfit : p.GetSize ≤ f.m_spaceInBytes) :
    f.AddPayload p =
      (Except.ok (uint32_sub f.m_spaceInBytes p.GetSize),
        { f with framePayload := f.framePayload ++ [p]
                 m_spaceInBytes := uint32_sub f.m_spaceInBytes p.GetSize }) := by
  simp [SatBbFrame.AddPayload, hfit, SatBbFrame.GetSpaceLeftInBytes]

theorem AddPayload_reject {f : SatBbFrame} {p : Packet} (hbig : f.m_spaceInBytes < p.GetSize) :
    f.AddPayload p = (Except.error FrameError.assertionFailed, f) := by
  simp [SatBbFrame.AddPayload, Nat.not_le.mpr hbig]

theorem AddPayload_balanced {f : SatBbFrame} (hf : f.Balanced) (p : Packet) :
    (f.AddPayload p).2.Balanced := by
  obtain ⟨hsum, hmax⟩ := hf
  by_cases hfit : p.GetSize ≤ f.m_spaceInBytes
  · rw [AddPayload_accept hfit]
    have hlt : f.m_spaceInBytes < UINT32_MOD := by omega
    refine ⟨?_, hmax⟩
    simp only [payloadBytes_append, payloadBytes_singleton, uint32_sub_of_le hfit hlt]
    omega
  · rw [AddPayload_reject (Nat.not_le.mp hfit)]
    exact ⟨hsum, hmax⟩

theorem addPayloads_balanced (pkts : List Packet) :
    ∀ {f : SatBbFrame}, f.Balanced → (addPayloads f pkts).2.Balanced := by
  induction pkts with
  | nil => intro f hf; exact hf
  | cons p ps ih =>
    intro f hf
    simp only [addPayloads]
    exact ih (AddPayload_balanced hf p)

theorem payloadBytes_cons (p : Packet) (ps : List Packet) :
    payloadBytes (p :: ps) = p.GetSize + payloadBytes ps := by
  simp [payloadBytes]

/-- A sequence of units that fits the remaining capacity is accepted unit by
unit, each call returning the capacity left after it. -/
theorem addPayloads_fit (pkts : List Packet) :
    ∀ (f : SatBbFrame), f.m_spaceInBytes < UINT32_MOD →
      payloadBytes pkts ≤ f.m_spaceInBytes →
      (addPayloads f pkts).1.length = pkts.length ∧
        ∀ k, k < pkts.length →
          (addPayloads f pkts).1[k]? =
            some (Except.ok (f.m_spaceInBytes - payloadBytes (pkts.take (k + 1)))) := by
  induction pkts with
  | nil =>
    intro f _ _
    exact ⟨rfl, fun k hk => absurd hk (Nat.not_lt_zero k)⟩
  | cons p ps ih =>
    intro f hlt hsum
    rw [payloadBytes_cons] at hsum
    have hfit : p.GetSize ≤ f.m_spaceInBytes := by omega
    have hsub := uint32_sub_of_le hfit hlt
    simp only [addPayloads, AddPayload_accept hfit, hsub]
    obtain ⟨hlen, hget⟩ := ih
      { f with framePayload := f.framePayload ++ [p]
               m_spaceInBytes := f.m_spaceInBytes - p.GetSize }
      (by simp only; omega) (by simp only; omega)
    refine ⟨by simp [hlen], ?_⟩
    intro k hk
    cases k with
    | zero => simp [payloadBytes]
    | succ j =>
      have hj : j < ps.length := by simpa using hk
      have := hget j hj
      simp only [List.getElem?_cons_succ, List.take_succ_cons, payloadBytes_cons]
      rw [this]
      simp only [Nat.sub_sub]

theorem addPayloads_length (pkts : List Packet) :
    ∀ f : SatBbFrame, (addPayloads f pkts).1.length = pkts.length := by
  induction pkts with
  | nil => intro f; rfl
  | cons p ps ih => intro f; simp [addPayloads, ih]

/-- The payload after a sequence of calls is the payload before it followed by
the accepted units. -/
theorem addPayloads_payload (pkts : List Packet) :
    ∀ f : SatBbFrame,
      (addPayloads f pkts).2.framePayload =
        f.framePayload ++ acceptedUnits pkts (addPayloads f pkts).1 := by
  induction pkts with
  | nil => intro f; simp [addPayloads, acceptedUnits]
  | cons p ps ih =>
    intro f
    by_cases hfit : p.GetSize ≤ f.m_spaceInBytes
    · simp only [addPayloads, AddPayload_accept hfit, acceptedUnits]
      rw [ih]
      simp
    · simp only [addPayloads, AddPayload_reject (Nat.not_le.mp hfit), acceptedUnits]
      rw [ih]

theorem acceptedUnits_sublist (pkts : List Packet) :
    ∀ rs : List (Except FrameError Nat), (acceptedUnits pkts rs).Sublist pkts := by
  induction pkts with
  | nil => intro rs; cases rs <;> simp [acceptedUnits]
  | cons p ps ih =>
    intro rs
    cases rs with
    | nil => simp [acceptedUnits]
    | cons r rs =>
      cases r with
      | ok n => simpa [acceptedUnits] using (ih rs).cons₂ p
      | error e => simpa [acceptedUnits] using (ih rs).cons p

/-- The members `AddPayload` never assigns. -/
theorem AddPayload_other_members (f : SatBbFrame) (p : Packet) :
    (f.AddPayload p).2.m_maxSpaceInBytes = f.m_maxSpaceInBytes ∧
      (f.AddPayload p).2.m_modCod = f.m_modCod ∧
      (f.AddPayload p).2.m_frameType = f.m_frameType ∧
      (f.AddPayload p).2.m_duration = f.m_duration ∧
      (f.AddPayload p).2.m_containsControlPdu = f.m_containsControlPdu := by
  by_cases hfit : p.GetSize ≤ f.m_spaceInBytes
  · rw [AddPayload_accept hfit]
    exact ⟨rfl, rfl, rfl, rfl, rfl⟩
  · rw [AddPayload_reject (Nat.not_le.mp hfit)]
    exact ⟨rfl, rfl, rfl, rfl, rfl⟩

theorem addPayloads_max (pkts : List Packet) :
    ∀ f : SatBbFrame, (addPayloads f pkts).2.m_maxSpaceInBytes = f.m_maxSpaceInBytes := by
  induction pkts with
  | nil => intro f; rfl
  | cons p ps ih =>
    intro f
    simp only [addPayloads]
    rw [ih, (AddPayload_other_members f p).1]

theorem nonEmptyUnits_length_le (units : List Packet) :
    (nonEmptyUnits units).length ≤ payloadBytes units := by
  induction units with
  | nil => simp [nonEmptyUnits]
  | cons p ps ih =>
    rw [payloadBytes_cons]
    unfold nonEmptyUnits at ih ⊢
    by_cases hp : 1 ≤ p.GetSize
    · simp only [List.filter_cons, hp, decide_True, if_true, List.length_cons]
      omega
    · simp only [List.filter_cons, hp, decide_False]
      simp only [Bool.false_eq_true, if_false]
      omega

theorem addPayloads_replicate_zero (p : Packet) (hp : p.GetSize = 0) (n : Nat) :
    ∀ f : SatBbFrame, f.m_spaceInBytes < UINT32_MOD →
      (addPayloads f (List.replicate n p)).2.framePayload.length =
          f.framePayload.length + n ∧
        (addPayloads f (List.replicate n p)).2.m_spaceInBytes = f.m_spaceInBytes := by
  induction n with
  | zero => intro f _; exact ⟨rfl, rfl⟩
  | succ k ih =>
    intro f hf
    have hfit : p.GetSize ≤ f.m_spaceInBytes := by omega
    have hsub : uint32_sub f.m_spaceInBytes p.GetSize = f.m_spaceInBytes := by
      rw [uint32_sub_of_le hfit hf]; omega
    simp only [List.replicate_succ, addPayloads, AddPayload_accept hfit, hsub]
    obtain ⟨h1, h2⟩ := ih { f with framePayload := f.framePayload ++ [p]
                                   m_spaceInBytes := f.m_spaceInBytes } hf
    refine ⟨?_, h2⟩
    rw [h1]
    simp only [List.length_append, List.length_singleton]
    omega

theorem map_find_append_new (key : key_t) (s : SatInputFileStreamDoubleContainer)
    (m : container_t) (hnone : map_find key m = none) :
    map_find key (m ++ [(key, s)]) = some s := by
  induction m with
  | nil => simp [map_find]
  | cons e rest ih =>
    obtain ⟨k, t⟩ := e
    by_cases hk : k = key
    · simp [map_find, hk] at hnone
    · simp only [map_find, hk, if_false] at hnone
      simp [map_find, hk, ih hnone]

theorem entriesFor_of_find_none (key : key_t) (m : container_t)
    (hnone : map_find key m = none) : entriesFor key m = 0 := by
  induction m with
  | nil => rfl
  | cons e rest ih =>
    obtain ⟨k, t⟩ := e
    by_cases hk : k = key
    · simp [map_find, hk] at hnone
    · simp only [map_find, hk, if_false] at hnone
      have := ih hnone
      simp only [entriesFor] at this ⊢
      simp [List.filter_cons, hk, this]

theorem entriesFor_append (key : key_t) (m n : container_t) :
    entriesFor key (m ++ n) = entriesFor key m + entriesFor key n := by
  simp [entriesFor]

theorem map_find_assign (key : key_t) (s1 : SatInputFileStreamDoubleContainer)
    (m : container_t) {s : SatInputFileStreamDoubleContainer}
    (hsome : map_find key m = some s) : map_find key (map_assign key s1 m) = some s1 := by
  induction m with
  | nil => simp [map_find] at hsome
  | cons e rest ih =>
    obtain ⟨k, t⟩ := e
    by_cases hk : k = key
    · simp [map_find, map_assign, hk]
    · simp only [map_find, hk, if_false] at hsome
      simp [map_find, map_assign, hk, ih hsome]

theorem entriesFor_assign (key : key_t) (s1 : SatInputFileStreamDoubleContainer)
    (m : container_t) : entriesFor key (map_assign key s1 m) = entriesFor key m := by
  induction m with
  | nil => rfl
  | cons e rest ih =>
    obtain ⟨k, t⟩ := e
    simp only [entriesFor] at ih ⊢
    by_cases hk : k = key
    · simp [map_assign, hk, List.filter_cons]
    · simp [map_assign, hk, List.filter_cons, ih]

/-- Registering a key that has no entry appends a binding to a new series
instance that is not loaded. -/
theorem AddNode_new (c : SatInterferenceInputTraceContainer) (key : key_t)
    (hnone : map_find key c.m_container = none) :
    c.AddNode key =
      { c with
        m_container := c.m_container ++ [(key, { instanceId := c.created, loaded := false })]
        created := c.created + 1 } := by
  simp [SatInterferenceInputTraceContainer.AddNode, hnone]

/-- Registering a key that has an entry changes nothing. -/
theorem AddNode_bound (c : SatInterferenceInputTraceContainer) (key : key_t)
    {s : SatInputFileStreamDoubleContainer} (hsome : map_find key c.m_container = some s) :
    c.AddNode key = c := by
  simp [SatInterferenceInputTraceContainer.AddNode, hsome]

/-- A lookup of a key bound to a loaded series returns it and changes
nothing. -/
theorem FindNode_loaded (c : SatInterferenceInputTraceContainer) (key : key_t)
    {s : SatInputFileStreamDoubleContainer} (hsome : map_find key c.m_container = some s)
    (hloaded : s.loaded = true) : c.FindNode key = (some s, c) := by
  simp [SatInterferenceInputTraceContainer.FindNode, hsome, hloaded]

/-- A lookup of a key bound to a series that is not loaded loads it. -/
theorem FindNode_first (c : SatInterferenceInputTraceContainer) (key : key_t)
    {s : SatInputFileStreamDoubleContainer} (hsome : map_find key c.m_container = some s)
    (hloaded : s.loaded = false) :
    c.FindNode key =
      (some { s with loaded := true },
        { c with
          m_container := map_assign key { s with loaded := true } c.m_container
          sourceLoads := c.sourceLoads ++ [key] }) := by
  simp [SatInterferenceInputTraceContainer.FindNode, hsome, hloaded]

/-! ## The claims -/

/-- C1. Frame capacity invariant: for every frame built by the (modCod, type,
conf) constructor and every finite sequence of `AddPayload` calls on it, the
frame after the calls has `GetSpaceLeftInBytes` equal to `GetMaxSpaceInBytes`
minus the sum of the sizes of the units held in the payload (as integers), so
the difference is never negative and the remaining capacity never exceeds the
maximum. Every prefix of a sequence of calls is itself a sequence of calls, so
this is the state after each call. -/
theorem C1_capacity_invariant (modCod : SatModcod_t) (type : SatBbFrameType_t)
    (conf : SatBbFrameConf) (f : SatBbFrame)
    (hmk : SatBbFrame.mk3 modCod type conf = Except.ok f) (pkts : List Packet) :
    ((addPayloads f pkts).2.GetSpaceLeftInBytes : Int) =
        ((addPayloads f pkts).2.GetMaxSpaceInBytes : Int) -
          (payloadBytes (addPayloads f pkts).2.GetTransmitData : Int) ∧
      (0 : Int) ≤ ((addPayloads f pkts).2.GetMaxSpaceInBytes : Int) -
          (payloadBytes (addPayloads f pkts).2.GetTransmitData : Int) ∧
      (addPayloads f pkts).2.GetSpaceLeftInBytes ≤
        (addPayloads f pkts).2.GetMaxSpaceInBytes := by
  obtain ⟨hsum, _⟩ := addPayloads_balanced pkts (mk3_balanced hmk)
  simp only [SatBbFrame.GetSpaceLeftInBytes, SatBbFrame.GetMaxSpaceInBytes,
    SatBbFrame.GetTransmitData]
  omega

/-- A witness of C1: a 1000-byte frame offered units of 600, 500 and 400 bytes. -/
theorem C1_capacity_invariant_witness :
    SatBbFrame.mk3 SatModcod_t.SAT_MODCOD_QPSK_3_TO_4 SatBbFrameType_t.SHORT_FRAME scenarioConf =
        Except.ok ⟨SatModcod_t.SAT_MODCOD_QPSK_3_TO_4, 1000, 1000, false,
          SatBbFrameType_t.SHORT_FRAME, 100, []⟩ ∧
      (addPayloads ⟨SatModcod_t.SAT_MODCOD_QPSK_3_TO_4, 1000, 1000, false,
          SatBbFrameType_t.SHORT_FRAME, 100, []⟩ [⟨1, 600⟩, ⟨2, 500⟩, ⟨3, 400⟩]).2.GetSpaceLeftInBytes
        ≤ 1000 :=
  ⟨rfl, (C1_capacity_invariant SatModcod_t.SAT_MODCOD_QPSK_3_TO_4 SatBbFrameType_t.SHORT_FRAME
    scenarioConf _ rfl [⟨1, 600⟩, ⟨2, 500⟩, ⟨3, 400⟩]).2.2⟩

/-- C2. For a frame constructed with capacity `C = GetMaxSpaceInBytes` and every
list of payload units whose sizes sum to at most `C`, offering the units one by
one with `AddPayload` gives one result per unit, and the `k`-th call (counting
from zero) succeeds and returns `C` minus the sum of the sizes of the units
offered up to and including it; so no call takes the failure branch. -/
theorem C2_fitting_sequence_succeeds (modCod : SatModcod_t) (type : SatBbFrameType_t)
    (conf : SatBbFrameConf) (f : SatBbFrame)
    (hmk : SatBbFrame.mk3 modCod type conf = Except.ok f) (pkts : List Packet)
    (hsum : payloadBytes pkts ≤ f.GetMaxSpaceInBytes) :
    (addPayloads f pkts).1.length = pkts.length ∧
      ∀ k, k < pkts.length →
        (addPayloads f pkts).1[k]? =
          some (Except.ok (f.GetMaxSpaceInBytes - payloadBytes (pkts.take (k + 1)))) := by
  obtain ⟨hspace, hmax, _⟩ := mk3_ok_shape hmk
  unfold SatBbFrame.GetMaxSpaceInBytes at hsum ⊢
  rw [← hspace] at hsum hmax ⊢
  exact addPayloads_fit pkts f hmax hsum

/-- A witness of C2: units of 600 and 400 bytes offered to a 1000-byte frame. -/
theorem C2_fitting_sequence_succeeds_witness :
    (addPayloads ⟨SatModcod_t.SAT_MODCOD_QPSK_3_TO_4, 1000, 1000, false,
        SatBbFrameType_t.SHORT_FRAME, 100, []⟩ [⟨1, 600⟩, ⟨2, 400⟩]).1[1]? =
      some (Except.ok (1000 - payloadBytes [⟨1, 600⟩, ⟨2, 400⟩])) :=
  (C2_fitting_sequence_succeeds SatModcod_t.SAT_MODCOD_QPSK_3_TO_4
    SatBbFrameType_t.SHORT_FRAME scenarioConf
    ⟨SatModcod_t.SAT_MODCOD_QPSK_3_TO_4, 1000, 1000, false,
        SatBbFrameType_t.SHORT_FRAME, 100, []⟩ rfl [⟨1, 600⟩, ⟨2, 400⟩]
    (by decide)).2 1 (by decide)

/-- C3. `AddPayload` rejects an oversize unit without partial acceptance: in
every frame state and for every unit, the call fails (with the failed
assertion, its only failure) if and only if the size of the unit is strictly
greater than the remaining capacity, and when it is, the frame after the call
is the frame before the call, so the payload sequence and the remaining
capacity are unchanged. -/
theorem C3_reject_iff_oversize (f : SatBbFrame) (p : Packet) :
    ((∃ e, (f.AddPayload p).1 = Except.error e) ↔ f.GetSpaceLeftInBytes < p.GetSize) ∧
      ((f.AddPayload p).1 = Except.error FrameError.assertionFailed ↔
        f.GetSpaceLeftInBytes < p.GetSize) ∧
      (f.GetSpaceLeftInBytes < p.GetSize →
        (f.AddPayload p).2 = f ∧
          (f.AddPayload p).2.GetTransmitData = f.GetTransmitData ∧
          (f.AddPayload p).2.GetSpaceLeftInBytes = f.GetSpaceLeftInBytes) := by
  unfold SatBbFrame.GetSpaceLeftInBytes
  by_cases hfit : p.GetSize ≤ f.m_spaceInBytes
  · have hno : ¬ f.m_spaceInBytes < p.GetSize := Nat.not_lt.mpr hfit
    rw [AddPayload_accept hfit]
    simp [hno]
  · have hbig : f.m_spaceInBytes < p.GetSize := Nat.not_le.mp hfit
    rw [AddPayload_reject hbig]
    simp [hbig]

/-- A witness of C3: a 500-byte unit offered to a frame with 400 bytes left. -/
theorem C3_reject_iff_oversize_witness :
    (SatBbFrame.AddPayload ⟨SatModcod_t.SAT_MODCOD_QPSK_3_TO_4, 400, 1000, false,
        SatBbFrameType_t.SHORT_FRAME, 100, [⟨1, 600⟩]⟩ ⟨2, 500⟩).2 =
      ⟨SatModcod_t.SAT_MODCOD_QPSK_3_TO_4, 400, 1000, false,
        SatBbFrameType_t.SHORT_FRAME, 100, [⟨1, 600⟩]⟩ :=
  ((C3_reject_iff_oversize ⟨SatModcod_t.SAT_MODCOD_QPSK_3_TO_4, 400, 1000, false,
        SatBbFrameType_t.SHORT_FRAME, 100, [⟨1, 600⟩]⟩ ⟨2, 500⟩).2.2 (by decide)).1

/-- C4, counterexample. On the 1000-byte short QPSK 3/4 frame of
`scenarioConf`, the run that offers units of 600, 500 and 400 bytes ends at
the second call: the calls that take place return 400 and the failed
assertion, there is no third call (hence none returning 0), and the payload
at the end of the run holds the 600-byte unit only, not the 600-byte and the
400-byte unit. -/
theorem C4_counterexample :
    SatBbFrame.mk3 SatModcod_t.SAT_MODCOD_QPSK_3_TO_4 SatBbFrameType_t.SHORT_FRAME
          scenarioConf =
        Except.ok ⟨SatModcod_t.SAT_MODCOD_QPSK_3_TO_4, 1000, 1000, false,
          SatBbFrameType_t.SHORT_FRAME, 100, []⟩ ∧
      (runAddPayloads ⟨SatModcod_t.SAT_MODCOD_QPSK_3_TO_4, 1000, 1000, false,
          SatBbFrameType_t.SHORT_FRAME, 100, []⟩ [⟨1, 600⟩, ⟨2, 500⟩, ⟨3, 400⟩]).1 =
        [Except.ok 400, Except.error FrameError.assertionFailed] ∧
      (runAddPayloads ⟨SatModcod_t.SAT_MODCOD_QPSK_3_TO_4, 1000, 1000, false,
          SatBbFrameType_t.SHORT_FRAME, 100, []⟩ [⟨1, 600⟩, ⟨2, 500⟩, ⟨3, 400⟩]).1[2]? = none ∧
      (runAddPayloads ⟨SatModcod_t.SAT_MODCOD_QPSK_3_TO_4, 1000, 1000, false,
          SatBbFrameType_t.SHORT_FRAME, 100, []⟩
          [⟨1, 600⟩, ⟨2, 500⟩, ⟨3, 400⟩]).2.GetTransmitData = [⟨1, 600⟩] ∧
      (runAddPayloads ⟨SatModcod_t.SAT_MODCOD_QPSK_3_TO_4, 1000, 1000, false,
          SatBbFrameType_t.SHORT_FRAME, 100, []⟩
          [⟨1, 600⟩, ⟨2, 500⟩, ⟨3, 400⟩]).2.GetTransmitData ≠ [⟨1, 600⟩, ⟨3, 400⟩] ∧
      (runAddPayloads ⟨SatModcod_t.SAT_MODCOD_QPSK_3_TO_4, 1000, 1000, false,
          SatBbFrameType_t.SHORT_FRAME, 100, []⟩
          [⟨1, 600⟩, ⟨2, 500⟩, ⟨3, 400⟩]).2.GetSpaceLeftInBytes = 400 := by
  refine ⟨rfl, rfl, rfl, rfl, ?_, rfl⟩
  decide

/-- C4, amended. For a short frame with modcod QPSK 3/4 whose configuration
gives 8000 payload bits, the frame has a capacity of 1000 bytes; `AddPayload`
of a 600-byte unit returns 400; a following `AddPayload` of a 500-byte unit
fails the assertion, the frame at that point still having 400 bytes left and
holding the 600-byte unit only; the failed assertion ends the run, so a
400-byte unit offered after it is never added; in the run that offers the
400-byte unit directly after the 600-byte unit, that call succeeds and returns
0, and the payload then holds exactly the 600-byte and the 400-byte unit, in
that order. -/
theorem C4_scenario_unrecoverable (conf : SatBbFrameConf) (p600 p500 p400 : Packet)
    (hbits : conf.GetBbFramePayloadBits SatModcod_t.SAT_MODCOD_QPSK_3_TO_4
      SatBbFrameType_t.SHORT_FRAME = 8000)
    (h600 : p600.GetSize = 600) (h500 : p500.GetSize = 500) (h400 : p400.GetSize = 400) :
    ∃ f0 : SatBbFrame,
      SatBbFrame.mk3 SatModcod_t.SAT_MODCOD_QPSK_3_TO_4 SatBbFrameType_t.SHORT_FRAME conf =
          Except.ok f0 ∧
        f0.GetMaxSpaceInBytes = 1000 ∧ f0.GetSpaceLeftInBytes = 1000 ∧
        (f0.AddPayload p600).1 = Except.ok 400 ∧
        ((f0.AddPayload p600).2.AddPayload p500).1 =
          Except.error FrameError.assertionFailed ∧
        ((f0.AddPayload p600).2.AddPayload p500).2.GetSpaceLeftInBytes = 400 ∧
        ((f0.AddPayload p600).2.AddPayload p500).2.GetTransmitData = [p600] ∧
        (runAddPayloads f0 [p600, p500, p400]).1 =
          [Except.ok 400, Except.error FrameError.assertionFailed] ∧
        (runAddPayloads f0 [p600, p500, p400]).2.GetSpaceLeftInBytes = 400 ∧
        (runAddPayloads f0 [p600, p500, p400]).2.GetTransmitData = [p600] ∧
        (runAddPayloads f0 [p600, p400]).1 = [Except.ok 400, Except.ok 0] ∧
        (runAddPayloads f0 [p600, p400]).2.GetSpaceLeftInBytes = 0 ∧
        (runAddPayloads f0 [p600, p400]).2.GetTransmitData = [p600, p400] := by
  refine ⟨_, rfl, ?_⟩
  have e1 : uint32_sub 1000 600 = 400 := by decide
  have e2 : uint32_sub 400 400 = 0 := by decide
  simp [runAddPayloads, SatBbFrame.AddPayload, SatBbFrame.GetMaxSpaceInBytes,
    SatBbFrame.GetSpaceLeftInBytes, SatBbFrame.GetTransmitData, hbits, h600, h500, h400, e1, e2]

/-- A witness of the amended C4: the two runs on `scenarioConf` with three
concrete units. -/
theorem C4_scenario_unrecoverable_witness :
    ∃ f0 : SatBbFrame,
      SatBbFrame.mk3 SatModcod_t.SAT_MODCOD_QPSK_3_TO_4 SatBbFrameType_t.SHORT_FRAME
          scenarioConf = Except.ok f0 ∧
        f0.GetMaxSpaceInBytes = 1000 ∧ f0.GetSpaceLeftInBytes = 1000 ∧
        (f0.AddPayload ⟨1, 600⟩).1 = Except.ok 400 ∧
        ((f0.AddPayload ⟨1, 600⟩).2.AddPayload ⟨2, 500⟩).1 =
          Except.error FrameError.assertionFailed ∧
        ((f0.AddPayload ⟨1, 600⟩).2.AddPayload ⟨2, 500⟩).2.GetSpaceLeftInBytes = 400 ∧
        ((f0.AddPayload ⟨1, 600⟩).2.AddPayload ⟨2, 500⟩).2.GetTransmitData = [⟨1, 600⟩] ∧
        (runAddPayloads f0 [⟨1, 600⟩, ⟨2, 500⟩, ⟨3, 400⟩]).1 =
          [Except.ok 400, Except.error FrameError.assertionFailed] ∧
        (runAddPayloads f0 [⟨1, 600⟩, ⟨2, 500⟩, ⟨3, 400⟩]).2.GetSpaceLeftInBytes = 400 ∧
        (runAddPayloads f0 [⟨1, 600⟩, ⟨2, 500⟩, ⟨3, 400⟩]).2.GetTransmitData = [⟨1, 600⟩] ∧
        (runAddPayloads f0 [⟨1, 600⟩, ⟨3, 400⟩]).1 = [Except.ok 400, Except.ok 0] ∧
        (runAddPayloads f0 [⟨1, 600⟩, ⟨3, 400⟩]).2.GetSpaceLeftInBytes = 0 ∧
        (runAddPayloads f0 [⟨1, 600⟩, ⟨3, 400⟩]).2.GetTransmitData = [⟨1, 600⟩, ⟨3, 400⟩] :=
  C4_scenario_unrecoverable scenarioConf ⟨1, 600⟩ ⟨2, 500⟩ ⟨3, 400⟩ (by decide) (by decide)
    (by decide) (by decide)

/-- C5. For every modcod and every configuration, the frame constructed with
type `DUMMY_FRAME` and the frame constructed with type `SHORT_FRAME` both
exist and have the same maximum capacity and the same initial remaining
capacity in bytes. -/
theorem C5_dummy_capacity_eq_short (modCod : SatModcod_t) (conf : SatBbFrameConf) :
    ∃ fd fs : SatBbFrame,
      SatBbFrame.mk3 modCod SatBbFrameType_t.DUMMY_FRAME conf = Except.ok fd ∧
        SatBbFrame.mk3 modCod SatBbFrameType_t.SHORT_FRAME conf = Except.ok fs ∧
        fd.GetMaxSpaceInBytes = fs.GetMaxSpaceInBytes ∧
        fd.GetSpaceLeftInBytes = fs.GetSpaceLeftInBytes :=
  ⟨_, _, rfl, rfl, rfl, rfl⟩

/-- C6, counterexample. With `equalLengthConf`, whose dummy frame length is the
same number (5) as its frame length for (QPSK 3/4, short), the dummy frame and
the short frame for QPSK 3/4 are both constructed and have the same duration. -/
theorem C6_counterexample :
    SatBbFrame.mk3 SatModcod_t.SAT_MODCOD_QPSK_3_TO_4 SatBbFrameType_t.DUMMY_FRAME
          equalLengthConf =
        Except.ok ⟨SatModcod_t.SAT_MODCOD_QPSK_3_TO_4, 1000, 1000, false,
          SatBbFrameType_t.DUMMY_FRAME, 5, []⟩ ∧
      SatBbFrame.mk3 SatModcod_t.SAT_MODCOD_QPSK_3_TO_4 SatBbFrameType_t.SHORT_FRAME
          equalLengthConf =
        Except.ok ⟨SatModcod_t.SAT_MODCOD_QPSK_3_TO_4, 1000, 1000, false,
          SatBbFrameType_t.SHORT_FRAME, 5, []⟩ ∧
      ¬ (∀ (modCod : SatModcod_t) (conf : SatBbFrameConf) (fd fs : SatBbFrame),
          SatBbFrame.mk3 modCod SatBbFrameType_t.DUMMY_FRAME conf = Except.ok fd →
          SatBbFrame.mk3 modCod SatBbFrameType_t.SHORT_FRAME conf = Except.ok fs →
          fd.m_duration ≠ fs.m_duration) := by
  refine ⟨rfl, rfl, ?_⟩
  intro hall
  exact hall SatModcod_t.SAT_MODCOD_QPSK_3_TO_4 equalLengthConf _ _ rfl rfl rfl

/-- C6, amended. For every modcod and every configuration, the dummy frame and
the short frame are both constructed; the duration of the dummy frame is the
configured dummy frame length, the duration of the short frame is the
configured frame length for (modcod, short); so the two durations differ
exactly when these two configured values differ. -/
theorem C6_dummy_duration_vs_short (modCod : SatModcod_t) (conf : SatBbFrameConf) :
    ∃ fd fs : SatBbFrame,
      SatBbFrame.mk3 modCod SatBbFrameType_t.DUMMY_FRAME conf = Except.ok fd ∧
        SatBbFrame.mk3 modCod SatBbFrameType_t.SHORT_FRAME conf = Except.ok fs ∧
        fd.m_duration = conf.GetDummyBbFrameLength ∧
        fs.m_duration = conf.GetBbFrameLength modCod SatBbFrameType_t.SHORT_FRAME ∧
        (fd.m_duration ≠ fs.m_duration ↔
          conf.GetDummyBbFrameLength ≠
            conf.GetBbFrameLength modCod SatBbFrameType_t.SHORT_FRAME) :=
  ⟨_, _, rfl, rfl, rfl, rfl, Iff.rfl⟩

/-- C7. The duration of a dummy frame is the configured dummy frame length,
independent of the modcod: for every two modcods and one configuration the two
`DUMMY_FRAME` frames are constructed and have equal duration, namely
`GetDummyBbFrameLength`; and the duration is not read from the (modcod, frame
type) length table, since replacing that table by any other leaves the
duration of the dummy frame the same. -/
theorem C7_dummy_duration_constant (conf : SatBbFrameConf) (m1 m2 : SatModcod_t)
    (table : SatModcod_t → SatBbFrameType_t → Time) :
    ∃ f1 f2 f1t : SatBbFrame,
      SatBbFrame.mk3 m1 SatBbFrameType_t.DUMMY_FRAME conf = Except.ok f1 ∧
        SatBbFrame.mk3 m2 SatBbFrameType_t.DUMMY_FRAME conf = Except.ok f2 ∧
        SatBbFrame.mk3 m1 SatBbFrameType_t.DUMMY_FRAME { conf with frameLength := table } =
          Except.ok f1t ∧
        f1.m_duration = conf.GetDummyBbFrameLength ∧
        f2.m_duration = f1.m_duration ∧
        f1t.m_duration = f1.m_duration :=
  ⟨_, _, _, rfl, rfl, rfl, rfl, rfl, rfl⟩

/-- C8. For type `SHORT_FRAME` or `NORMAL_FRAME`, every modcod and every
configuration, the frame is constructed, its maximum capacity is the configured
payload bits for (modcod, type) divided by 8 with the remainder discarded (so
`8 * capacity ≤ bits < 8 * capacity + 8`), its duration is the configured frame
length for the same (modcod, type), its remaining capacity equals the maximum
capacity, and its payload sequence is empty. -/
theorem C8_short_normal_construction (modCod : SatModcod_t) (type : SatBbFrameType_t)
    (conf : SatBbFrameConf)
    (htype : type = SatBbFrameType_t.SHORT_FRAME ∨ type = SatBbFrameType_t.NORMAL_FRAME) :
    ∃ f : SatBbFrame,
      SatBbFrame.mk3 modCod type conf = Except.ok f ∧
        f.GetMaxSpaceInBytes = conf.GetBbFramePayloadBits modCod type / 8 ∧
        8 * f.GetMaxSpaceInBytes ≤ conf.GetBbFramePayloadBits modCod type ∧
        conf.GetBbFramePayloadBits modCod type < 8 * f.GetMaxSpaceInBytes + 8 ∧
        f.m_duration = conf.GetBbFrameLength modCod type ∧
        f.GetSpaceLeftInBytes = f.GetMaxSpaceInBytes ∧
        f.GetTransmitData = [] := by
  rcases htype with h | h <;> subst h <;>
    refine ⟨_, rfl, rfl, ?_, ?_, rfl, rfl, rfl⟩ <;>
    simp only [SatBbFrame.GetMaxSpaceInBytes] <;> omega

/-- A witness of C8: a normal frame of `sampleConf`, 64800 bits giving 8100
bytes. -/
theorem C8_short_normal_construction_witness :
    ∃ f : SatBbFrame,
      SatBbFrame.mk3 (SatModcod_t.OTHER 7) SatBbFrameType_t.NORMAL_FRAME sampleConf =
          Except.ok f ∧
        f.GetMaxSpaceInBytes =
          sampleConf.GetBbFramePayloadBits (SatModcod_t.OTHER 7)
            SatBbFrameType_t.NORMAL_FRAME / 8 ∧
        8 * f.GetMaxSpaceInBytes ≤
          sampleConf.GetBbFramePayloadBits (SatModcod_t.OTHER 7)
            SatBbFrameType_t.NORMAL_FRAME ∧
        sampleConf.GetBbFramePayloadBits (SatModcod_t.OTHER 7) SatBbFrameType_t.NORMAL_FRAME <
          8 * f.GetMaxSpaceInBytes + 8 ∧
        f.m_duration =
          sampleConf.GetBbFrameLength (SatModcod_t.OTHER 7) SatBbFrameType_t.NORMAL_FRAME ∧
        f.GetSpaceLeftInBytes = f.GetMaxSpaceInBytes ∧
        f.GetTransmitData = [] :=
  C8_short_normal_construction (SatModcod_t.OTHER 7) SatBbFrameType_t.NORMAL_FRAME sampleConf
    (Or.inr rfl)

/-- C9. For every modcod and configuration, construction with a frame type
value fails, yielding no frame, if and only if the value is none of
`SHORT_FRAME`, `NORMAL_FRAME` and `DUMMY_FRAME`; the failure is then the
invalid frame type error, and construction with one of the three valid types
always yields a frame. -/
theorem C9_invalid_type_iff_error (modCod : SatModcod_t) (type : SatBbFrameType_t)
    (conf : SatBbFrameConf) :
    (SatBbFrame.mk3 modCod type conf = Except.error FrameError.invalidBbFrameType ↔
        (type ≠ SatBbFrameType_t.SHORT_FRAME ∧ type ≠ SatBbFrameType_t.NORMAL_FRAME ∧
          type ≠ SatBbFrameType_t.DUMMY_FRAME)) ∧
      ((∃ f, SatBbFrame.mk3 modCod type conf = Except.ok f) ↔
        (type = SatBbFrameType_t.SHORT_FRAME ∨ type = SatBbFrameType_t.NORMAL_FRAME ∨
          type = SatBbFrameType_t.DUMMY_FRAME)) ∧
      ((∃ e, SatBbFrame.mk3 modCod type conf = Except.error e) ↔
        ¬ ∃ f, SatBbFrame.mk3 modCod type conf = Except.ok f) := by
  cases type <;>
    simp [SatBbFrame.mk3, NS_FATAL_ERROR, bind, Except.bind, pure, Except.pure]

/-- C10. Default construction of `SatBbFrame` always fails with the
default constructor error: whatever value the frame type member is
value-initialised to, no frame is returned, in particular no frame of zero
capacity. -/
theorem C10_default_construction_fails (zeroType : SatBbFrameType_t) :
    SatBbFrame.mkDefault zeroType =
        Except.error FrameError.defaultConstructorNotSupported ∧
      (∀ f : SatBbFrame, SatBbFrame.mkDefault zeroType ≠ Except.ok f) ∧
      ¬ ∃ f : SatBbFrame,
          SatBbFrame.mkDefault zeroType = Except.ok f ∧ f.GetMaxSpaceInBytes = 0 := by
  have h : SatBbFrame.mkDefault zeroType =
      Except.error FrameError.defaultConstructorNotSupported := rfl
  refine ⟨h, ?_, ?_⟩
  · intro f hf
    rw [h] at hf
    cases hf
  · rintro ⟨f, hf, _⟩
    rw [h] at hf
    cases hf

/-- C11. `GetTransmitData` returns exactly the accepted units in acceptance
order: for every sequence of `AddPayload` calls on a freshly constructed frame
there is one result per offered unit, `GetTransmitData` equals the subsequence
of the offered units whose call succeeded, in the order offered (a sublist of
the offered list, so nothing is duplicated or reordered), and a call of
`GetTransmitData` returns the payload and leaves the frame, hence the payload
and the remaining capacity, as it was. -/
theorem C11_transmit_data_fifo (modCod : SatModcod_t) (type : SatBbFrameType_t)
    (conf : SatBbFrameConf) (f : SatBbFrame)
    (hmk : SatBbFrame.mk3 modCod type conf = Except.ok f) (pkts : List Packet) :
    (addPayloads f pkts).1.length = pkts.length ∧
      (addPayloads f pkts).2.GetTransmitData = acceptedUnits pkts (addPayloads f pkts).1 ∧
      ((addPayloads f pkts).2.GetTransmitData).Sublist pkts ∧
      (addPayloads f pkts).2.GetTransmitData_call.1 = (addPayloads f pkts).2.framePayload ∧
      (addPayloads f pkts).2.GetTransmitData_call.2 = (addPayloads f pkts).2 ∧
      (addPayloads f pkts).2.GetTransmitData_call.2.GetSpaceLeftInBytes =
        (addPayloads f pkts).2.GetSpaceLeftInBytes := by
  obtain ⟨_, _, hnil⟩ := mk3_ok_shape hmk
  have hpay : (addPayloads f pkts).2.GetTransmitData =
      acceptedUnits pkts (addPayloads f pkts).1 := by
    unfold SatBbFrame.GetTransmitData
    rw [addPayloads_payload pkts f, hnil, List.nil_append]
  refine ⟨addPayloads_length pkts f, hpay, ?_, rfl, rfl, rfl⟩
  rw [hpay]
  exact acceptedUnits_sublist pkts _

/-- A witness of C11: a 1000-byte frame offered units of 600, 500 and 400
bytes transmits the first and the third. -/
theorem C11_transmit_data_fifo_witness :
    (addPayloads ⟨SatModcod_t.SAT_MODCOD_QPSK_3_TO_4, 1000, 1000, false,
        SatBbFrameType_t.SHORT_FRAME, 100, []⟩
        [⟨1, 600⟩, ⟨2, 500⟩, ⟨3, 400⟩]).2.GetTransmitData = [⟨1, 600⟩, ⟨3, 400⟩] :=
  (C11_transmit_data_fifo SatModcod_t.SAT_MODCOD_QPSK_3_TO_4 SatBbFrameType_t.SHORT_FRAME
    scenarioConf ⟨SatModcod_t.SAT_MODCOD_QPSK_3_TO_4, 1000, 1000, false,
        SatBbFrameType_t.SHORT_FRAME, 100, []⟩ rfl
    [⟨1, 600⟩, ⟨2, 500⟩, ⟨3, 400⟩]).2.1.trans (by decide)

/-- C12. For the Rayleigh parameter provider and every valid parameter set
(elevation bucket) index of a loaded provider, `GetParameters (set)` returns a
sequence whose length equals the configured state count, and every per-state
tuple in it has exactly `DEFAULT_RAYLEIGH_PARAMETER_COUNT = 2` parameters. -/
theorem C12_rayleigh_parameters_shape (elevationCount stateCount : Nat)
    (table : List (List (List Double))) (conf : SatRayleighConf)
    (hload : SatRayleighConf.load elevationCount stateCount table = Except.ok conf)
    (set : Nat) (hset : set < conf.m_elevationCount) :
    ∃ states : List (List Double),
      conf.GetParameters set = some states ∧
        states.length = conf.m_stateCount ∧
        (∀ tuple ∈ states, tuple.length = DEFAULT_RAYLEIGH_PARAMETER_COUNT) ∧
        DEFAULT_RAYLEIGH_PARAMETER_COUNT = 2 := by
  unfold SatRayleighConf.load at hload
  split at hload
  · rename_i hok
    obtain ⟨hlen, hsets⟩ := hok
    cases hload
    simp only at hset
    have hidx : set < table.length := by omega
    refine ⟨table[set], ?_, ?_, ?_, rfl⟩
    · simp [SatRayleighConf.GetParameters, List.getElem?_eq_getElem hidx]
    · exact (hsets _ (List.getElem_mem hidx)).1
    · exact (hsets _ (List.getElem_mem hidx)).2
  · cases hload

/-- A witness of C12: the second bucket of a provider loaded with two buckets
of three states. -/
theorem C12_rayleigh_parameters_shape_witness :
    ∃ states : List (List Double),
      SatRayleighConf.GetParameters ⟨2, 3, sampleRayleighTable⟩ 1 = some states ∧
        states.length = 3 ∧
        (∀ tuple ∈ states, tuple.length = DEFAULT_RAYLEIGH_PARAMETER_COUNT) ∧
        DEFAULT_RAYLEIGH_PARAMETER_COUNT = 2 :=
  C12_rayleigh_parameters_shape 2 3 sampleRayleighTable ⟨2, 3, sampleRayleighTable⟩
    (if_pos (by decide)) 1 (by decide)

/-- C13. In the interference input trace container each key maps to exactly
one series instance: for a key not yet registered, registering it twice with
`AddNode` gives the same container as registering it once, with exactly one
entry for the key and no load of the external source by the registrations;
over the sequence register, look up, register, look up the external source of
the key is loaded exactly once (by the first lookup), the container still has
exactly one entry for the key, and `FindNode` returns the same series instance
after the second registration as after the first. -/
theorem C13_one_series_per_key (c : SatInterferenceInputTraceContainer) (key : key_t)
    (hnew : map_find key c.m_container = none) :
    (c.AddNode key).AddNode key = c.AddNode key ∧
      entriesFor key ((c.AddNode key).AddNode key).m_container = 1 ∧
      ((c.AddNode key).AddNode key).sourceLoads = c.sourceLoads ∧
      (∃ s : SatInputFileStreamDoubleContainer,
        ((c.AddNode key).FindNode key).1 = some s ∧
          ((((c.AddNode key).FindNode key).2.AddNode key).FindNode key).1 = some s ∧
          (((c.AddNode key).AddNode key).FindNode key).1 = some s) ∧
      ((((c.AddNode key).FindNode key).2.AddNode key).FindNode key).2.sourceLoads =
        c.sourceLoads ++ [key] ∧
      (((c.AddNode key).AddNode key).FindNode key).2.sourceLoads = c.sourceLoads ++ [key] ∧
      entriesFor key
        ((((c.AddNode key).FindNode key).2.AddNode key).FindNode key).2.m_container = 1 := by
  have hreg := AddNode_new c key hnew
  have hfind1 : map_find key (c.AddNode key).m_container =
      some { instanceId := c.created, loaded := false } := by
    rw [hreg]
    exact map_find_append_new key _ c.m_container hnew
  have hloads1 : (c.AddNode key).sourceLoads = c.sourceLoads := by rw [hreg]
  have hadd : (c.AddNode key).AddNode key = c.AddNode key :=
    AddNode_bound (c.AddNode key) key hfind1
  have hcount : entriesFor key (c.AddNode key).m_container = 1 := by
    rw [hreg]
    simp only [entriesFor_append, entriesFor_of_find_none key c.m_container hnew]
    simp [entriesFor]
  have hF1 : (c.AddNode key).FindNode key =
      (some { instanceId := c.created, loaded := true },
        { c.AddNode key with
          m_container := map_assign key { instanceId := c.created, loaded := true }
            (c.AddNode key).m_container
          sourceLoads := c.sourceLoads ++ [key] }) := by
    have h := FindNode_first (c.AddNode key) key hfind1 (by rfl)
    rw [hloads1] at h
    exact h
  have hfind2 : map_find key ((c.AddNode key).FindNode key).2.m_container =
      some { instanceId := c.created, loaded := true } := by
    rw [hF1]
    exact map_find_assign key _ _ hfind1
  have hadd2 : ((c.AddNode key).FindNode key).2.AddNode key = ((c.AddNode key).FindNode key).2 :=
    AddNode_bound ((c.AddNode key).FindNode key).2 key hfind2
  have hF2 : (((c.AddNode key).FindNode key).2).FindNode key =
      (some { instanceId := c.created, loaded := true }, ((c.AddNode key).FindNode key).2) :=
    FindNode_loaded ((c.AddNode key).FindNode key).2 key hfind2 (by rfl)
  refine ⟨hadd, ?_, ?_, ⟨{ instanceId := c.created, loaded := true }, ?_, ?_, ?_⟩, ?_, ?_, ?_⟩
  · rw [hadd]; exact hcount
  · rw [hadd, hloads1]
  · rw [hF1]
  · rw [hadd2, hF2]
  · rw [hadd, hF1]
  · rw [hadd2, hF2, hF1]
  · rw [hadd, hF1]
  · rw [hadd2, hF2, hF1]
    simp only
    rw [entriesFor_assign]
    exact hcount

/-- A witness of C13: the key (7, `FORWARD_USER_CH`) registered twice in the
container after construction. -/
theorem C13_one_series_per_key_witness :
    entriesFor (7, ChannelType_t.FORWARD_USER_CH)
      ((emptyTraceContainer.AddNode (7, ChannelType_t.FORWARD_USER_CH)).AddNode
        (7, ChannelType_t.FORWARD_USER_CH)).m_container = 1 :=
  (C13_one_series_per_key emptyTraceContainer (7, ChannelType_t.FORWARD_USER_CH) rfl).2.1

/-- C14. Input freshness in the Markov logic example: running the timeline of
`main` in timestamp order, the elevation query returns 45 at the fading
requests at 10 ms and 30 ms, 55 at those at 50 ms, 60 ms and 90 ms, and 75 at
those at 100 ms, 130 ms and 200 ms, the value most recently set before each
request, while the velocity query returns 0 at every request; the elevation
query returns what `SetElevation` last stored, setting the elevation never
changes the velocity and setting the velocity never changes the elevation. -/
theorem C14_example_input_freshness :
    MarkovLogicExample.Run MarkovLogicExample.initialGlobals MarkovLogicExample.mainQueue =
        [⟨10, 45, 0⟩, ⟨30, 45, 0⟩, ⟨50, 55, 0⟩, ⟨60, 55, 0⟩, ⟨90, 55, 0⟩,
          ⟨100, 75, 0⟩, ⟨130, 75, 0⟩, ⟨200, 75, 0⟩] ∧
      (∀ (g : MarkovLogicExample.Globals) (e : Double),
        MarkovLogicExample.GetElevation (MarkovLogicExample.SetElevation g e) = e ∧
          MarkovLogicExample.GetVelocity (MarkovLogicExample.SetElevation g e) =
            MarkovLogicExample.GetVelocity g) ∧
      (∀ (g : MarkovLogicExample.Globals) (v : Double),
        MarkovLogicExample.GetVelocity (MarkovLogicExample.SetVelocity g v) = v ∧
          MarkovLogicExample.GetElevation (MarkovLogicExample.SetVelocity g v) =
            MarkovLogicExample.GetElevation g) := by
  refine ⟨?_, fun g e => ⟨rfl, rfl⟩, fun g v => ⟨rfl, rfl⟩⟩
  decide

/-- C15. `AddPayload` changes only the payload sequence and the remaining
capacity: for every frame and every unit, accepted or rejected, the maximum
capacity (`GetMaxSpaceInBytes`), the modcod, the frame type, the duration and
the contains-control-PDU flag are the same after the call as before it. -/
theorem C15_AddPayload_frame (f : SatBbFrame) (p : Packet) :
    (f.AddPayload p).2.GetMaxSpaceInBytes = f.GetMaxSpaceInBytes ∧
      (f.AddPayload p).2.m_modCod = f.m_modCod ∧
      (f.AddPayload p).2.m_frameType = f.m_frameType ∧
      (f.AddPayload p).2.m_duration = f.m_duration ∧
      (f.AddPayload p).2.m_containsControlPdu = f.m_containsControlPdu :=
  AddPayload_other_members f p

/-- C16. The unsigned 32-bit subtraction in `AddPayload` never wraps around:
for every frame state (the remaining capacity being a `uint32_t`) and every
unit, the remaining capacity is replaced by the result of the subtraction only
when the call succeeds, which it does exactly when `size ≤ m_spaceInBytes`;
the result computed modulo `2^32` is then the exact difference, it is the
value returned, and it is at most the remaining capacity before the call. A
rejected call leaves the remaining capacity as it was. -/
theorem C16_subtraction_never_wraps (f : SatBbFrame) (p : Packet)
    (hu32 : f.m_spaceInBytes < UINT32_MOD) :
    ((∃ n, (f.AddPayload p).1 = Except.ok n) ↔ p.GetSize ≤ f.m_spaceInBytes) ∧
      (∀ n, (f.AddPayload p).1 = Except.ok n →
        p.GetSize ≤ f.m_spaceInBytes ∧
          n = uint32_sub f.m_spaceInBytes p.GetSize ∧
          (n : Int) = (f.m_spaceInBytes : Int) - (p.GetSize : Int) ∧
          (f.AddPayload p).2.GetSpaceLeftInBytes = n ∧
          n ≤ f.GetSpaceLeftInBytes) ∧
      (¬ p.GetSize ≤ f.m_spaceInBytes →
        (f.AddPayload p).2.GetSpaceLeftInBytes = f.GetSpaceLeftInBytes) := by
  unfold SatBbFrame.GetSpaceLeftInBytes
  by_cases hfit : p.GetSize ≤ f.m_spaceInBytes
  · have hsub := uint32_sub_of_le hfit hu32
    rw [AddPayload_accept hfit]
    refine ⟨⟨fun _ => hfit, fun _ => ⟨_, rfl⟩⟩, ?_, fun h => absurd hfit h⟩
    intro n hn
    have hn2 : uint32_sub f.m_spaceInBytes p.GetSize = n := by
      simpa using hn
    refine ⟨hfit, hn2.symm, ?_, hn2, ?_⟩ <;> omega
  · rw [AddPayload_reject (Nat.not_le.mp hfit)]
    refine ⟨⟨?_, fun h => absurd h hfit⟩, ?_, fun _ => rfl⟩
    · rintro ⟨n, hn⟩
      cases hn
    · intro n hn
      cases hn

/-- A witness of C16: a 600-byte unit offered to a frame with 1000 bytes left
is accepted. -/
theorem C16_subtraction_never_wraps_witness :
    (∃ n, (SatBbFrame.AddPayload ⟨SatModcod_t.SAT_MODCOD_QPSK_3_TO_4, 1000, 1000, false,
        SatBbFrameType_t.SHORT_FRAME, 100, []⟩ ⟨1, 600⟩).1 = Except.ok n) :=
  (C16_subtraction_never_wraps ⟨SatModcod_t.SAT_MODCOD_QPSK_3_TO_4, 1000, 1000, false,
        SatBbFrameType_t.SHORT_FRAME, 100, []⟩ ⟨1, 600⟩ (by decide)).1.mpr (by decide)

/-- C17. Bound on the number of accepted units: for every frame constructed
with maximum capacity `C` and every sequence of `AddPayload` calls on it, the
number of accepted units of size at least one byte is at most `C`, each such
acceptance strictly decreasing the remaining capacity; whereas a
unit of size zero is accepted in every frame state (a full frame included),
the call returning the unchanged remaining capacity and appending the unit to
the payload; so after `n` units of size zero the payload of the constructed
frame has length `n`, for every `n`, and the payload length is not bounded by
`C`. -/
theorem C17_accepted_units_bound (modCod : SatModcod_t) (type : SatBbFrameType_t)
    (conf : SatBbFrameConf) (f : SatBbFrame)
    (hmk : SatBbFrame.mk3 modCod type conf = Except.ok f) :
    (∀ pkts : List Packet,
        (nonEmptyUnits (acceptedUnits pkts (addPayloads f pkts).1)).length ≤
          f.GetMaxSpaceInBytes) ∧
      (∀ (g : SatBbFrame) (p : Packet), g.m_spaceInBytes < UINT32_MOD → 1 ≤ p.GetSize →
        p.GetSize ≤ g.m_spaceInBytes →
        (g.AddPayload p).2.GetSpaceLeftInBytes < g.GetSpaceLeftInBytes) ∧
      (∀ (g : SatBbFrame) (p : Packet), g.m_spaceInBytes < UINT32_MOD → p.GetSize = 0 →
        g.AddPayload p =
          (Except.ok g.GetSpaceLeftInBytes,
            { g with framePayload := g.framePayload ++ [p] })) ∧
      (∀ (p : Packet) (n : Nat), p.GetSize = 0 →
        (addPayloads f (List.replicate n p)).2.GetTransmitData.length = n ∧
          (addPayloads f (List.replicate n p)).2.GetSpaceLeftInBytes =
            f.GetMaxSpaceInBytes) := by
  obtain ⟨hspace, hmax, hnil⟩ := mk3_ok_shape hmk
  unfold SatBbFrame.GetMaxSpaceInBytes SatBbFrame.GetSpaceLeftInBytes
    SatBbFrame.GetTransmitData
  refine ⟨?_, ?_, ?_, ?_⟩
  · intro pkts
    obtain ⟨hsum, _⟩ := addPayloads_balanced pkts (mk3_balanced hmk)
    have hpay := addPayloads_payload pkts f
    rw [hnil, List.nil_append] at hpay
    rw [hpay, addPayloads_max pkts f] at hsum
    have := nonEmptyUnits_length_le (acceptedUnits pkts (addPayloads f pkts).1)
    omega
  · intro g p hg hpos hfit
    rw [AddPayload_accept hfit, uint32_sub_of_le hfit hg]
    simp only
    omega
  · intro g p hg hp
    have hfit : p.GetSize ≤ g.m_spaceInBytes := by omega
    rw [AddPayload_accept hfit, uint32_sub_of_le hfit hg, hp]
    rfl
  · intro p n hp
    obtain ⟨h1, h2⟩ := addPayloads_replicate_zero p hp n f (by omega)
    rw [h1, h2, hnil, hspace]
    simp

/-- A witness of C17: five units of size zero offered to a frame of capacity
zero are all held in the payload. -/
theorem C17_accepted_units_bound_witness :
    (addPayloads ⟨SatModcod_t.OTHER 0, 0, 0, false, SatBbFrameType_t.NORMAL_FRAME, 100, []⟩
        (List.replicate 5 ⟨9, 0⟩)).2.GetTransmitData.length = 5 ∧
      (addPayloads ⟨SatModcod_t.OTHER 0, 0, 0, false, SatBbFrameType_t.NORMAL_FRAME, 100, []⟩
        (List.replicate 5 ⟨9, 0⟩)).2.GetSpaceLeftInBytes =
        SatBbFrame.GetMaxSpaceInBytes
          ⟨SatModcod_t.OTHER 0, 0, 0, false, SatBbFrameType_t.NORMAL_FRAME, 100, []⟩ :=
  (C17_accepted_units_bound (SatModcod_t.OTHER 0) SatBbFrameType_t.NORMAL_FRAME scenarioConf
    ⟨SatModcod_t.OTHER 0, 0, 0, false, SatBbFrameType_t.NORMAL_FRAME, 100, []⟩ rfl).2.2.2
    ⟨9, 0⟩ 5 (by decide)

end Sns3
